import Mathlib

/-!
Shallow embedding of the insurance-aggregator backend's disaster-verification
subsystem (`src/utils/indian_disaster_verification.py` and
`src/process_claim.py`) together with theorems settling the frozen claims.

Conventions of the embedding:
* Python `datetime` values are modelled by `PyDateTime`: a wall-clock time in
  integer seconds since 1970-01-01T00:00:00 (proleptic Gregorian), plus an
  optional fixed UTC offset in seconds standing for `tzinfo` (`none` = naive).
* `datetime.fromisoformat` is modelled on its canonical input subset
  `YYYY-MM-DD[<sep>HH:MM[:SS][±HH:MM]]` (fractional seconds are out of scope;
  like the Python 3.10 function, a bare `Z` suffix is not accepted, which is
  why the source replaces `"Z"` with `"+00:00"` first).
* Exceptions are modelled by `Option`/`Except`: an operation that can raise
  returns `none`/`.error`, and a caller's `try/except` block turns that into
  the fallback value the `except` clause produces.
* Machine floats are modelled by `ℝ`; network I/O is modelled by passing the
  fetch outcome (an `Except` value) as an explicit argument.
-/

namespace InsuranceAggregator

/-- A Python `datetime`: wall-clock seconds since the epoch, plus the
`tzinfo` as an optional fixed UTC offset in seconds (`none` = naive). -/
structure PyDateTime where
  wall : Int
  tz : Option Int
deriving DecidableEq, Repr

/-- Whether a year is a Gregorian leap year (as `calendar.isleap`). -/
def isLeap (y : Int) : Bool :=
  y % 4 == 0 && (y % 100 != 0 || y % 400 == 0)

/-- Number of days in month `m` (1-12) of year `y`. -/
def daysInMonth (y : Int) (m : Nat) : Nat :=
  if m = 2 then (if isLeap y then 29 else 28)
  else if m = 4 ∨ m = 6 ∨ m = 9 ∨ m = 11 then 30
  else 31

/-- Days from 1970-01-01 to year `y`, month `m`, day `d` in the proleptic
Gregorian calendar (standard civil-from-days algorithm). -/
def daysFromCivil (y : Int) (m d : Nat) : Int :=
  let y' : Int := if m ≤ 2 then y - 1 else y
  let era : Int := Int.fdiv y' 400
  let yoe : Int := y' - era * 400
  let mp : Int := (Int.ofNat m + 9) % 12
  let doy : Int := (153 * mp + 2) / 5 + Int.ofNat d - 1
  let doe : Int := yoe * 365 + yoe / 4 - yoe / 100 + doy
  era * 146097 + doe - 719468

/-- Value of a decimal digit character, `none` on non-digits. -/
def digit? (c : Char) : Option Nat :=
  if '0' ≤ c ∧ c ≤ '9' then some (c.toNat - '0'.toNat) else none

/-- Read exactly two decimal digits. -/
def parse2 : List Char → Option (Nat × List Char)
  | c1 :: c2 :: rest => do
      let d1 ← digit? c1
      let d2 ← digit? c2
      pure (d1 * 10 + d2, rest)
  | _ => none

/-- Read exactly four decimal digits. -/
def parse4 : List Char → Option (Nat × List Char)
  | c1 :: c2 :: c3 :: c4 :: rest => do
      let d1 ← digit? c1
      let d2 ← digit? c2
      let d3 ← digit? c3
      let d4 ← digit? c4
      pure (((d1 * 10 + d2) * 10 + d3) * 10 + d4, rest)
  | _ => none

/-- Consume one expected character. -/
def expectChar (c : Char) : List Char → Option (List Char)
  | x :: rest => if x = c then some rest else none
  | [] => none

/-- Read `HH:MM` or `HH:MM:SS` (hour, minute, second, remaining input). -/
def parseTimePart (cs : List Char) : Option (Nat × Nat × Nat × List Char) := do
  let (h, r1) ← parse2 cs
  let r2 ← expectChar ':' r1
  let (mi, r3) ← parse2 r2
  match r3 with
  | ':' :: r4 => do
      let (s, r5) ← parse2 r4
      pure (h, mi, s, r5)
  | _ => pure (h, mi, 0, r3)

/-- Read a trailing UTC offset `±HH:MM` (offset in seconds); the whole
remaining input must be consumed. -/
def parseOffsetPart : List Char → Option (Option Int)
  | [] => some none
  | '+' :: r => do
      let (oh, r1) ← parse2 r
      let r2 ← expectChar ':' r1
      let (om, r3) ← parse2 r2
      guard (r3 = [] ∧ oh ≤ 23 ∧ om ≤ 59)
      pure (some (Int.ofNat (oh * 3600 + om * 60)))
  | '-' :: r => do
      let (oh, r1) ← parse2 r
      let r2 ← expectChar ':' r1
      let (om, r3) ← parse2 r2
      guard (r3 = [] ∧ oh ≤ 23 ∧ om ≤ 59)
      pure (some (-(Int.ofNat (oh * 3600 + om * 60))))
  | _ => none

/-- Model of `datetime.fromisoformat` on its canonical subset:
`YYYY-MM-DD`, optionally followed by a one-character separator and
`HH:MM[:SS]`, optionally followed by `±HH:MM`.  Returns `none` where the
Python function raises `ValueError` (malformed input, out-of-range fields). -/
def fromisoformat (s : String) : Option PyDateTime := do
  let cs := s.toList
  let (y, r1) ← parse4 cs
  let r2 ← expectChar '-' r1
  let (mo, r3) ← parse2 r2
  let r4 ← expectChar '-' r3
  let (d, r5) ← parse2 r4
  guard (1 ≤ y ∧ 1 ≤ mo ∧ mo ≤ 12 ∧ 1 ≤ d ∧ d ≤ daysInMonth (Int.ofNat y) mo)
  match r5 with
  | [] => pure { wall := 86400 * daysFromCivil (Int.ofNat y) mo d, tz := none }
  | _sep :: tr => do
      let (h, mi, sec, r6) ← parseTimePart tr
      guard (h ≤ 23 ∧ mi ≤ 59 ∧ sec ≤ 59)
      let tz ← parseOffsetPart r6
      pure { wall := 86400 * daysFromCivil (Int.ofNat y) mo d +
                     Int.ofNat (h * 3600 + mi * 60 + sec),
             tz := tz }

/-- Strip a pattern from the front of a character list (`none` = no match). -/
def stripPre : List Char → List Char → Option (List Char)
  | [], s => some s
  | _ :: _, [] => none
  | p :: ps, c :: cs => if c = p then stripPre ps cs else none

/-- Worker for `pyStrReplace`, replacing non-overlapping occurrences of
`p :: ps` left to right.  `fuel` bounds the recursion depth; every call site
passes the input length, which always suffices since each step consumes at
least one character. -/
def replListAux (p : Char) (ps new : List Char) : Nat → List Char → List Char
  | 0, _ => []
  | _, [] => []
  | fuel + 1, c :: cs =>
    if c = p then
      match stripPre ps cs with
      | some rest => new ++ replListAux p ps new fuel rest
      | none => c :: replListAux p ps new fuel cs
    else c :: replListAux p ps new fuel cs

/-- Python `str.replace(old, new)` for a non-empty `old`: replaces all
non-overlapping occurrences, scanning left to right. -/
def pyStrReplace (s old new : String) : String :=
  match old.toList with
  | [] => s
  | p :: ps => String.mk (replListAux p ps new.toList s.toList.length s.toList)

/-- `datetime.replace(tzinfo=...)`: reattaches the `tzinfo` without touching
the wall-clock fields. -/
def datetime_replace_tzinfo (dt : PyDateTime) (tz : Option Int) : PyDateTime :=
  { dt with tz := tz }

/-- Python datetime subtraction, in seconds.  Subtracting an aware from a
naive datetime (or vice versa) raises `TypeError`, modelled as `none`. -/
def py_datetime_sub (a b : PyDateTime) : Option Int :=
  match a.tz, b.tz with
  | some ta, some tb => some ((a.wall - ta) - (b.wall - tb))
  | none, none => some (a.wall - b.wall)
  | _, _ => none

/-- The `.days` component of a Python `timedelta` of `delta` seconds:
floors toward negative infinity. -/
def timedelta_days (delta : Int) : Int :=
  Int.fdiv delta 86400

/-- The timezone adjustment `_is_date_close` performs before subtracting
(source lines 265-268): the target datetime's `tzinfo` is overwritten with
the event datetime's `tzinfo`; the event datetime is left unchanged. -/
def dateCloseAdjustedPair (event_datetime target_datetime : PyDateTime) :
    PyDateTime × PyDateTime :=
  (event_datetime, datetime_replace_tzinfo target_datetime event_datetime.tz)

/-- `IndianDisasterVerificationService._is_date_close`.  Either date may be
`None` (the event date comes from a `.get(...)`; the target date is the EXIF
timestamp, also possibly `None`): then `.replace`/`fromisoformat` raises and
the `except` returns `False`.  Any parse failure or subtraction `TypeError`
is likewise caught by the `try/except`, which returns `False`. -/
def is_date_close (event_date : Option String) (target_date : Option String)
    (days_threshold : Nat) : Bool :=
  match event_date with
  | none => false
  | some ed_str =>
    match fromisoformat (pyStrReplace ed_str "Z" "+00:00") with
    | none => false
    | some event_datetime =>
      match target_date with
      | none => false
      | some td_str =>
        match fromisoformat td_str with
        | none => false
        | some target_datetime =>
          let p := dateCloseAdjustedPair event_datetime target_datetime
          match py_datetime_sub p.1 p.2 with
          | none => false
          | some delta => decide ((timedelta_days delta).natAbs ≤ days_threshold)

/-! ## Haversine distance (`_is_event_relevant`'s nested helper) -/

/-- `math.radians`: degrees to radians. -/
noncomputable def radians (x : ℝ) : ℝ := x * Real.pi / 180

/-- `math.atan2` with C99 semantics, on the reals. -/
noncomputable def atan2 (y x : ℝ) : ℝ :=
  if 0 < x then Real.arctan (y / x)
  else if x < 0 then
    (if 0 ≤ y then Real.arctan (y / x) + Real.pi
     else Real.arctan (y / x) - Real.pi)
  else
    (if 0 < y then Real.pi / 2 else if y < 0 then -(Real.pi / 2) else 0)

/-- The intermediate `a` of the source's `haversine_distance`:
`sin(dlat/2)**2 + cos(lat1)*cos(lat2)*sin(dlon/2)**2` after converting the
four inputs to radians. -/
noncomputable def hav_a (lat1 lon1 lat2 lon2 : ℝ) : ℝ :=
  Real.sin ((radians lat2 - radians lat1) / 2) ^ 2 +
    Real.cos (radians lat1) * Real.cos (radians lat2) *
      Real.sin ((radians lon2 - radians lon1) / 2) ^ 2

/-- `haversine_distance(lat1, lon1, lat2, lon2)` as nested in
`_is_event_relevant` and repeated verbatim in `_is_reliefweb_event_relevant`:
Earth radius R = 6371 km, `c = 2*atan2(sqrt(a), sqrt(1-a))`, distance `R*c`. -/
noncomputable def haversine_distance (lat1 lon1 lat2 lon2 : ℝ) : ℝ :=
  let a := hav_a lat1 lon1 lat2 lon2
  let c := 2 * atan2 (Real.sqrt a) (Real.sqrt (1 - a))
  6371 * c

/-! ## Event records and relevance matchers

Python dict accesses are modelled field by field: a `.get(k)` is an `Option`
field, a `.get(k, default)` is `Option.getD`, and a bare index `[0]` that can
raise `IndexError` is `listIndex`.  A `coordinates` list is modelled as a
GeoJSON `(longitude, latitude)` pair (lists of length ≠ 2 are out of scope of
every claim). -/

/-- Python `xs[i]`: raises `IndexError` when out of range. -/
def listIndex (xs : List α) (i : Nat) : Except String α :=
  match xs[i]? with
  | some x => .ok x
  | none => .error "IndexError"

/-- One entry of an EONET event's `geometry` list. -/
structure Geometry where
  coordinates : Option (ℝ × ℝ)
  date : Option String

/-- One entry of an EONET event's `categories` list. -/
structure Category where
  title : Option String

/-- One entry of an EONET event's `sources` list. -/
structure EonetSource where
  url : Option String

/-- A NASA EONET event, with the fields the source reads.  An absent
`geometry` key and an empty `geometry` list are both falsy in
`if event.get("geometry")` and are conflated as `[]`. -/
structure EonetEvent where
  title : Option String
  categories : Option (List Category)
  geometry : List Geometry
  sources : Option (List EonetSource)

/-- `IndianDisasterVerificationService._is_event_relevant`: the event passes
iff its (first) geometry exists, the haversine distance from the target to
the event's coordinates — defaulting to `[0, 0]` when the `coordinates` key
is absent — is within `radius_km`, and `_is_date_close` accepts the geometry's
date. -/
noncomputable def is_event_relevant (event : EonetEvent) (latitude longitude : ℝ)
    (target_date : Option String) (radius_km : ℝ) : Bool :=
  match event.geometry with
  | [] => false
  | event_coords :: _ =>
    let c := event_coords.coordinates.getD (0, 0)
    let event_lat := c.2
    let event_lon := c.1
    let distance := haversine_distance latitude longitude event_lat event_lon
    decide (distance ≤ radius_km) && is_date_close event_coords.date target_date 30

/-- The `location` dict inside a ReliefWeb country entry. -/
structure RWLocation where
  lat : Option ℝ
  lon : Option ℝ

/-- One entry of a ReliefWeb disaster's `country` list. -/
structure RWCountry where
  location : Option RWLocation

/-- One entry of a ReliefWeb disaster's `type` list. -/
structure RWName where
  name : Option String

/-- The `fields` dict of a ReliefWeb disaster (an absent `fields` key yields
`{}`, i.e. every member `none`).  `dateCreated` flattens
`fields["date"]["created"]`. -/
structure RWFields where
  country : Option (List RWCountry)
  typeList : Option (List RWName)
  name : Option String
  dateCreated : Option String
  url_alias : Option String

/-- A detailed ReliefWeb disaster record. -/
structure RWDisaster where
  fields : RWFields

/-- `IndianDisasterVerificationService._is_reliefweb_event_relevant`.  This
method has no `try/except` of its own, so raised exceptions (`IndexError` on
an empty present `country` list, `TypeError` from `radians(None)` when `lat`
or `lon` is missing) propagate to the caller: they are the `.error` case. -/
noncomputable def is_reliefweb_event_relevant (disaster : RWDisaster)
    (latitude longitude : ℝ) (target_date : Option String) (radius_km : ℝ) :
    Except String Bool :=
  match listIndex (disaster.fields.country.getD [{ location := none }]) 0 with
  | .error e => .error e
  | .ok c0 =>
    match c0.location with
    | none => .ok false
    | some disaster_coords =>
      match disaster_coords.lat, disaster_coords.lon with
      | some disaster_lat, some disaster_lon =>
        let distance := haversine_distance latitude longitude disaster_lat disaster_lon
        .ok (decide (distance ≤ radius_km) &&
             is_date_close disaster.fields.dateCreated target_date 30)
      | _, _ => .error "TypeError"

/-! ## Feed adapters

A disaster row as appended by `_check_nasa_eonet` / `_check_reliefweb`.  The
EONET row's `coordinates` and the ReliefWeb row's `location` entries are
never read by any later code and carry no claim; they are omitted from the
model. -/

/-- A match appended to the `disasters` list. -/
structure Disaster where
  source : String
  type : String
  title : String
  date : Option String
  link : String
deriving DecidableEq, Repr

/-- Construction of the EONET disaster row (source lines 99-114).  The `[0]`
indexing of present-but-empty lists raises `IndexError`, and
`.get("url")` returning `None` makes `.replace` raise `AttributeError`;
either is an `.error` that the feed's `try/except` will catch. -/
def buildEonetDisaster (event : EonetEvent) : Except String Disaster :=
  match listIndex (event.categories.getD [{ title := none }]) 0 with
  | .error e => .error e
  | .ok cat0 =>
    match listIndex event.geometry 0 with
    | .error e => .error e
    | .ok geo0 =>
      match listIndex (event.sources.getD [{ url := none }]) 0 with
      | .error e => .error e
      | .ok src0 =>
        match src0.url with
        | none => .error "AttributeError"
        | some u =>
          .ok { source := "NASA EONET",
                type := cat0.title.getD "Unknown",
                title := event.title.getD "Unnamed Event",
                date := geo0.date,
                link := pyStrReplace u "amp;" "" }

/-- Construction of the ReliefWeb disaster row (source lines 147-164). -/
def buildReliefwebDisaster (disaster : RWDisaster) : Except String Disaster :=
  match listIndex (disaster.fields.typeList.getD [{ name := none }]) 0 with
  | .error e => .error e
  | .ok t0 =>
    .ok { source := "ReliefWeb",
          type := t0.name.getD "Unknown",
          title := disaster.fields.name.getD "Unnamed Event",
          date := disaster.fields.dateCreated,
          link := disaster.fields.url_alias.getD "" }

/-- The event loop of `_check_nasa_eonet`.  An exception raised while
processing one event jumps to the method's `except` handler, which returns
the `disasters` accumulated so far — hence the recursion returns `[]` at the
failing event, keeping every earlier match. -/
noncomputable def eonetLoop (latitude longitude : ℝ) (date : Option String)
    (radius_km : ℝ) : List EonetEvent → List Disaster
  | [] => []
  | event :: rest =>
    if is_event_relevant event latitude longitude date radius_km then
      match buildEonetDisaster event with
      | .error _ => []
      | .ok d => d :: eonetLoop latitude longitude date radius_km rest
    else eonetLoop latitude longitude date radius_km rest

/-- `IndianDisasterVerificationService._check_nasa_eonet`.  The whole body is
wrapped in `try/except`; the fetch outcome (`requests.get` plus `.json()`) is
the explicit `fetch` argument: `.error` models a raised transport/parsing
exception (caught, yielding `[]`), `.ok (status, events)` a decoded
response.  A non-200 status skips the loop entirely. -/
noncomputable def check_nasa_eonet (fetch : Except String (Nat × List EonetEvent))
    (latitude longitude : ℝ) (date : Option String) (radius_km : ℝ) :
    List Disaster :=
  match fetch with
  | .error _ => []
  | .ok (status_code, events) =>
    if status_code = 200 then eonetLoop latitude longitude date radius_km events
    else []

/-- The per-disaster loop of `_check_reliefweb`: each listed item's `href` is
fetched again (`detail` models `requests.get(href).json()["data"][0]`; its
`.error` covers a bad/missing href, a transport error, a JSON error, or an
empty `data` list).  As in `eonetLoop`, an exception anywhere in an
iteration ends the loop and the `except` handler returns the matches
accumulated so far. -/
noncomputable def reliefwebLoop (detail : Option String → Except String RWDisaster)
    (latitude longitude : ℝ) (date : Option String) (radius_km : ℝ) :
    List (Option String) → List Disaster
  | [] => []
  | href :: rest =>
    match detail href with
    | .error _ => []
    | .ok disaster =>
      match is_reliefweb_event_relevant disaster latitude longitude date radius_km with
      | .error _ => []
      | .ok true =>
        match buildReliefwebDisaster disaster with
        | .error _ => []
        | .ok d => d :: reliefwebLoop detail latitude longitude date radius_km rest
      | .ok false => reliefwebLoop detail latitude longitude date radius_km rest

/-- `IndianDisasterVerificationService._check_reliefweb`, with the initial
list fetch and the per-item detail fetches as explicit arguments. -/
noncomputable def check_reliefweb (fetch : Except String (Nat × List (Option String)))
    (detail : Option String → Except String RWDisaster)
    (latitude longitude : ℝ) (date : Option String) (radius_km : ℝ) :
    List Disaster :=
  match fetch with
  | .error _ => []
  | .ok (status_code, refs) =>
    if status_code = 200 then reliefwebLoop detail latitude longitude date radius_km refs
    else []

/-! ## Top-level verification and reporting -/

/-- The `verification_report` dict. -/
structure VerificationReport where
  latitude : ℝ
  longitude : ℝ
  date : Option String
  disaster_occurred : Bool
  disasters : List Disaster

/-- `IndianDisasterVerificationService.verify_location_disaster`: the report
starts as `disaster_occurred = False, disasters = []` and both fields are
overwritten iff `eonet_disasters + reliefweb_disasters` is non-empty. -/
noncomputable def verify_location_disaster
    (eonetFetch : Except String (Nat × List EonetEvent))
    (rwFetch : Except String (Nat × List (Option String)))
    (detail : Option String → Except String RWDisaster)
    (latitude longitude : ℝ) (date : Option String) (radius_km : ℝ) :
    VerificationReport :=
  let eonet_disasters := check_nasa_eonet eonetFetch latitude longitude date radius_km
  let reliefweb_disasters := check_reliefweb rwFetch detail latitude longitude date radius_km
  let all_disasters := eonet_disasters ++ reliefweb_disasters
  if all_disasters.isEmpty then
    { latitude, longitude, date, disaster_occurred := false, disasters := [] }
  else
    { latitude, longitude, date, disaster_occurred := true, disasters := all_disasters }

/-- The insurance summary dict. -/
structure InsuranceSummary where
  claim_verifiable : Bool
  disaster_types : List String
  disaster_sources : List String

/-- `IndianDisasterVerificationService.generate_insurance_report`.  Python's
`list(set(...))` yields the distinct sources in an unspecified order; it is
modelled as first-occurrence deduplication (`List.dedup`), and the theorems
about it only use membership, duplicate-freedom and length. -/
def generate_insurance_report (verification_result : VerificationReport) :
    InsuranceSummary :=
  { claim_verifiable := verification_result.disaster_occurred,
    disaster_types := verification_result.disasters.map (·.type),
    disaster_sources := (verification_result.disasters.map (·.source)).dedup }

/-! ## Claim processing (`src/process_claim.py`) -/

/-- Python truthiness test `not image_blob` on an optional bytes value:
true for a missing key and for an empty blob. -/
def pyFalsyBytes : Option String → Bool
  | none => true
  | some b => b == ""

/-- The MongoDB claim document, with the field `process_claim` reads. -/
structure ClaimRecord where
  receiptImage : Option String

/-- `process_claim.process_claim`.  The database lookup result, the EXIF
extraction (`extract_exif_data`, returning optional GPS coordinates and an
optional timestamp string), and the two feed fetch outcomes are explicit
arguments; file writes, prints, geocoding and crop identification are side
effects with no influence on the returned `(message, status)` pair. -/
noncomputable def process_claim (claim_data : Option ClaimRecord)
    (exif : String → Option (ℝ × ℝ) × Option String)
    (eonetFetch : Except String (Nat × List EonetEvent))
    (rwFetch : Except String (Nat × List (Option String)))
    (detail : Option String → Except String RWDisaster) :
    String × Nat :=
  match claim_data with
  | none => ("Claim not found", 404)
  | some claim =>
    let image_blob := claim.receiptImage
    if pyFalsyBytes image_blob then
      ("Image not found in the claim data", 400)
    else
      let ex := exif (image_blob.getD "")
      match ex.1 with
      | some latlon =>
        let verification_result :=
          verify_location_disaster eonetFetch rwFetch detail latlon.1 latlon.2 ex.2 50
        let _insurance_report := generate_insurance_report verification_result
        ("Claim processed successfully", 200)
      | none =>
        ("Claim processed successfully", 200)

/-! ## Helper lemmas -/

/-- The haversine intermediate `a` is symmetric in the two points. -/
theorem hav_a_comm (lat1 lon1 lat2 lon2 : ℝ) :
    hav_a lat1 lon1 lat2 lon2 = hav_a lat2 lon2 lat1 lon1 := by
  unfold hav_a
  have h : ∀ x y : ℝ, Real.sin ((x - y) / 2) ^ 2 = Real.sin ((y - x) / 2) ^ 2 := by
    intro x y
    rw [show (x - y) / 2 = -((y - x) / 2) by ring, Real.sin_neg, neg_sq]
  rw [h (radians lat2) (radians lat1), h (radians lon2) (radians lon1),
    mul_comm (Real.cos (radians lat1))]

/-- The haversine intermediate `a` vanishes on identical points. -/
theorem hav_a_self (lat lon : ℝ) : hav_a lat lon lat lon = 0 := by
  simp [hav_a]

/-- `atan2 0 1 = 0` (the branch `x > 0`, `arctan (0/1)`). -/
theorem atan2_zero_one : atan2 0 1 = 0 := by
  simp [atan2, Real.arctan_zero]

/-- The haversine distance from a point to itself is zero. -/
theorem haversine_self (lat lon : ℝ) : haversine_distance lat lon lat lon = 0 := by
  simp only [haversine_distance, hav_a_self, Real.sqrt_zero, sub_zero, Real.sqrt_one,
    atan2_zero_one]
  ring

/-- Once both date strings parse, `_is_date_close` compares the wall-clock
difference in floored days: the timezone fields never influence the result,
because the target's `tzinfo` is overwritten with the event's before the
subtraction. -/
theorem is_date_close_parsed (eds ts : String) (ed td : PyDateTime) (n : Nat)
    (he : fromisoformat (pyStrReplace eds "Z" "+00:00") = some ed)
    (ht : fromisoformat ts = some td) :
    is_date_close (some eds) (some ts) n =
      decide ((timedelta_days (ed.wall - td.wall)).natAbs ≤ n) := by
  simp only [is_date_close, he, ht, dateCloseAdjustedPair, datetime_replace_tzinfo,
    py_datetime_sub]
  cases htz : ed.tz with
  | none => simp
  | some t =>
      simp only
      rw [show ed.wall - t - (td.wall - t) = ed.wall - td.wall by ring]

/-! ## Claims -/

/-- C9: the haversine distance function is symmetric — for every pair of
coordinates A and B, `haversine_distance(A, B) == haversine_distance(B, A)` —
and for every coordinate A, `haversine_distance(A, A) == 0`. -/
theorem haversine_symm_and_self_zero :
    (∀ lat1 lon1 lat2 lon2 : ℝ,
      haversine_distance lat1 lon1 lat2 lon2 = haversine_distance lat2 lon2 lat1 lon1) ∧
    (∀ lat lon : ℝ, haversine_distance lat lon lat lon = 0) := by
  constructor
  · intro lat1 lon1 lat2 lon2
    simp only [haversine_distance]
    rw [hav_a_comm]
  · exact haversine_self

/-- C2 (counterexample): with a naive event datetime and an aware target
datetime, the claim says the naive one (the event) is coerced to the aware
one's zone and the aware one left alone — i.e. the adjusted pair should be
both-aware at offset +05:00.  The code instead strips the target to naive. -/
theorem date_close_coercion_counterexample :
    ¬ (dateCloseAdjustedPair { wall := 0, tz := none } { wall := 0, tz := some 18000 } =
        ({ wall := 0, tz := some 18000 }, { wall := 0, tz := some 18000 })) := by
  decide

/-- C2 (amended): `_is_date_close` always overwrites the target's `tzinfo`
with the event's and never modifies the event: when the event is aware and
the target naive, the naive target is indeed coerced to the aware event's
zone, but when the target is aware and the event naive, the aware target is
stripped to naive (the reverse of what the claim states for that case). -/
theorem date_close_coercion_amended :
    ∀ (e t : PyDateTime) (z : Int),
      (e.tz = some z → dateCloseAdjustedPair e t = (e, { t with tz := some z })) ∧
      (e.tz = none → dateCloseAdjustedPair e t = (e, { t with tz := none })) := by
  intro e t z
  constructor <;> intro h <;>
    simp [dateCloseAdjustedPair, datetime_replace_tzinfo, h]

/-- C2 (amended, witness): the two directions at concrete datetimes: an aware
event (+05:00) with a naive target coerces the target to +05:00; a naive
event with an aware target strips the target to naive. -/
theorem date_close_coercion_amended_witness :
    dateCloseAdjustedPair { wall := 10, tz := some 18000 } { wall := 0, tz := none } =
      ({ wall := 10, tz := some 18000 }, { wall := 0, tz := some 18000 }) ∧
    dateCloseAdjustedPair { wall := 0, tz := none } { wall := 0, tz := some 18000 } =
      ({ wall := 0, tz := none }, { wall := 0, tz := none }) :=
  ⟨(date_close_coercion_amended { wall := 10, tz := some 18000 } { wall := 0, tz := none }
      18000).1 rfl,
   (date_close_coercion_amended { wall := 0, tz := none } { wall := 0, tz := some 18000 }
      18000).2 rfl⟩

/-- C8: if either date input is malformed or missing (a `None` event date, a
`None` target date, or either string rejected by `fromisoformat`), then
`_is_date_close` returns `False`.  It never raises: in this embedding the
function is total — the `try/except` turns every modelled exception into the
`False` branch. -/
theorem date_close_fails_closed :
    (∀ ts n, is_date_close none ts n = false) ∧
    (∀ (s : String) ts n, fromisoformat (pyStrReplace s "Z" "+00:00") = none →
      is_date_close (some s) ts n = false) ∧
    (∀ ed n, is_date_close ed none n = false) ∧
    (∀ ed (ts : String) n, fromisoformat ts = none →
      is_date_close ed (some ts) n = false) := by
  refine ⟨fun ts n => rfl, fun s ts n h => ?_, fun ed n => ?_, fun ed ts n h => ?_⟩
  · simp [is_date_close, h]
  · cases ed with
    | none => rfl
    | some s => cases h : fromisoformat (pyStrReplace s "Z" "+00:00") <;> simp [is_date_close, h]
  · cases ed with
    | none => rfl
    | some s =>
        cases he : fromisoformat (pyStrReplace s "Z" "+00:00") <;> simp [is_date_close, he, h]

/-- C8 (witness): concrete malformed inputs all yield `False`: a missing
event date, an unparsable event date, a missing target date, and an
unparsable target date. -/
theorem date_close_fails_closed_witness :
    is_date_close none (some "2024-11-07") 30 = false ∧
    is_date_close (some "not-a-date") (some "2024-11-07") 30 = false ∧
    is_date_close (some "2024-11-07") none 30 = false ∧
    is_date_close (some "2024-11-07") (some "07/11/2024") 30 = false :=
  ⟨date_close_fails_closed.1 (some "2024-11-07") 30,
   date_close_fails_closed.2.1 "not-a-date" (some "2024-11-07") 30 (by rfl),
   date_close_fails_closed.2.2.1 (some "2024-11-07") 30,
   date_close_fails_closed.2.2.2 (some "2024-11-07") "07/11/2024" 30 (by rfl)⟩

/-- C10: the 30-day window is asymmetric around the target datetime, because
`abs` is applied to the `.days` component of the signed difference, which
floors toward negative infinity: an event strictly between 30 and 31 days
AFTER the target is still temporally relevant (`.days = 30`), while an event
more than exactly 30 days BEFORE the target is not (`.days ≤ -31`).
(2592000 = 30 days and 2678400 = 31 days, in seconds.) -/
theorem date_close_asymmetric_window :
    ∀ (eds ts : String) (ed td : PyDateTime),
      fromisoformat (pyStrReplace eds "Z" "+00:00") = some ed →
      fromisoformat ts = some td →
      (2592000 < ed.wall - td.wall → ed.wall - td.wall < 2678400 →
        is_date_close (some eds) (some ts) 30 = true) ∧
      (ed.wall - td.wall < -2592000 →
        is_date_close (some eds) (some ts) 30 = false) := by
  intro eds ts ed td he ht
  rw [is_date_close_parsed eds ts ed td 30 he ht]
  constructor
  · intro h1 h2
    rw [decide_eq_true_eq]
    unfold timedelta_days
    rw [Int.fdiv_eq_ediv _ (by norm_num)]
    omega
  · intro h1
    rw [decide_eq_false_iff_not]
    unfold timedelta_days
    rw [Int.fdiv_eq_ediv _ (by norm_num)]
    omega

/-- C10 (witness): an event at noon 30.5 days after the target midnight is
relevant; an event at noon 30.5 days before it is not.
(`2024-12-07T12:00:00` vs `2024-11-07`, and `2024-10-07T12:00:00` vs
`2024-11-07`.) -/
theorem date_close_asymmetric_window_witness :
    is_date_close (some "2024-12-07T12:00:00") (some "2024-11-07") 30 = true ∧
    is_date_close (some "2024-10-07T12:00:00") (some "2024-11-07") 30 = false :=
  ⟨(date_close_asymmetric_window "2024-12-07T12:00:00" "2024-11-07"
      { wall := 1733572800, tz := none } { wall := 1730937600, tz := none }
      (by rfl) (by rfl)).1 (by norm_num) (by norm_num),
   (date_close_asymmetric_window "2024-10-07T12:00:00" "2024-11-07"
      { wall := 1728302400, tz := none } { wall := 1730937600, tz := none }
      (by rfl) (by rfl)).2 (by norm_num)⟩

/-- C1: for an event with coordinates and a parsable date, each matcher
accepts iff the haversine distance (mean Earth radius 6371 km) to the target
is within `radius_km` AND the absolute value of the `.days` component of the
signed date difference is at most 30; both conjuncts are required. -/
theorem event_relevant_iff :
    (∀ (ev : EonetEvent) (g : Geometry) (gs : List Geometry)
        (lat lon radius elon elat : ℝ) (eds ts : String) (ed td : PyDateTime),
      ev.geometry = g :: gs →
      g.coordinates = some (elon, elat) →
      g.date = some eds →
      fromisoformat (pyStrReplace eds "Z" "+00:00") = some ed →
      fromisoformat ts = some td →
      (is_event_relevant ev lat lon (some ts) radius = true ↔
        (haversine_distance lat lon elat elon ≤ radius ∧
          (timedelta_days (ed.wall - td.wall)).natAbs ≤ 30))) ∧
    (∀ (dis : RWDisaster) (c : RWCountry) (crest : List RWCountry) (loc : RWLocation)
        (lat lon radius dlat dlon : ℝ) (eds ts : String) (ed td : PyDateTime),
      dis.fields.country = some (c :: crest) →
      c.location = some loc →
      loc.lat = some dlat →
      loc.lon = some dlon →
      dis.fields.dateCreated = some eds →
      fromisoformat (pyStrReplace eds "Z" "+00:00") = some ed →
      fromisoformat ts = some td →
      (is_reliefweb_event_relevant dis lat lon (some ts) radius = .ok true ↔
        (haversine_distance lat lon dlat dlon ≤ radius ∧
          (timedelta_days (ed.wall - td.wall)).natAbs ≤ 30))) := by
  constructor
  · intro ev g gs lat lon radius elon elat eds ts ed td hg hc hd he ht
    simp only [is_event_relevant, hg, hc, Option.getD_some, hd]
    rw [is_date_close_parsed eds ts ed td 30 he ht]
    simp
  · intro dis c crest loc lat lon radius dlat dlon eds ts ed td hco hl hlat hlon hd he ht
    simp only [is_reliefweb_event_relevant, hco, Option.getD_some, listIndex,
      List.getElem?_cons_zero, hl, hlat, hlon, hd]
    rw [is_date_close_parsed eds ts ed td 30 he ht]
    simp

/-- C1 (witness): a same-point event dated on the target day satisfies every
hypothesis, and the theorem instantiates to the advertised equivalence for
both matchers. -/
theorem event_relevant_iff_witness :
    (is_event_relevant
        { title := none, categories := none,
          geometry := [{ coordinates := some (0, 0), date := some "2024-11-07" }],
          sources := none } 0 0 (some "2024-11-07") 50 = true ↔
      (haversine_distance 0 0 0 0 ≤ 50 ∧
        (timedelta_days ((1730937600 : Int) - 1730937600)).natAbs ≤ 30)) ∧
    (is_reliefweb_event_relevant
        { fields := { country := some [{ location := some { lat := some 0, lon := some 0 } }],
                      typeList := none, name := none,
                      dateCreated := some "2024-11-07", url_alias := none } }
        0 0 (some "2024-11-07") 50 = .ok true ↔
      (haversine_distance 0 0 0 0 ≤ 50 ∧
        (timedelta_days ((1730937600 : Int) - 1730937600)).natAbs ≤ 30)) :=
  ⟨event_relevant_iff.1
      { title := none, categories := none,
        geometry := [{ coordinates := some (0, 0), date := some "2024-11-07" }],
        sources := none }
      { coordinates := some (0, 0), date := some "2024-11-07" } [] 0 0 50 0 0
      "2024-11-07" "2024-11-07" { wall := 1730937600, tz := none }
      { wall := 1730937600, tz := none } rfl rfl rfl (by rfl) (by rfl),
   event_relevant_iff.2
      { fields := { country := some [{ location := some { lat := some 0, lon := some 0 } }],
                    typeList := none, name := none,
                    dateCreated := some "2024-11-07", url_alias := none } }
      { location := some { lat := some 0, lon := some 0 } } []
      { lat := some 0, lon := some 0 } 0 0 50 0 0 "2024-11-07" "2024-11-07"
      { wall := 1730937600, tz := none } { wall := 1730937600, tz := none }
      rfl rfl rfl rfl rfl (by rfl) (by rfl)⟩

/-- C3 (counterexample): an EONET event whose geometry exists but whose
`coordinates` key is missing is NOT always irrelevant: the code substitutes
the default `[0, 0]`, so at target coordinate (0,0) with a matching date the
matcher returns `True`, contradicting the claim that such an event is never
relevant. -/
theorem event_missing_coordinates_counterexample :
    is_event_relevant
      { title := none, categories := none,
        geometry := [{ coordinates := none, date := some "2024-11-07" }],
        sources := none } 0 0 (some "2024-11-07") 50 = true := by
  simp only [is_event_relevant, Option.getD_none]
  rw [Bool.and_eq_true]
  constructor
  · rw [decide_eq_true_eq]
    rw [haversine_self]
    norm_num
  · rfl

/-- C3 (amended): an event with no geometry at all (missing or empty
`geometry` list) is never relevant and raises no error (the matcher is total
and returns `False`), and a ReliefWeb disaster with no `country` entry or no
`location` in its first country entry is likewise never relevant with no
error (`.ok false`); but when the geometry is present and only the
`coordinates` key inside it is missing, the coordinates default to `[0, 0]`
and the event can still match a target near the origin. -/
theorem event_absent_coordinates_amended :
    (∀ (ev : EonetEvent) (lat lon radius : ℝ) (ts : Option String),
      ev.geometry = [] → is_event_relevant ev lat lon ts radius = false) ∧
    (∀ (dis : RWDisaster) (lat lon radius : ℝ) (ts : Option String),
      dis.fields.country = none →
      is_reliefweb_event_relevant dis lat lon ts radius = .ok false) ∧
    (∀ (dis : RWDisaster) (c : RWCountry) (crest : List RWCountry)
        (lat lon radius : ℝ) (ts : Option String),
      dis.fields.country = some (c :: crest) → c.location = none →
      is_reliefweb_event_relevant dis lat lon ts radius = .ok false) := by
  refine ⟨fun ev lat lon radius ts h => ?_, fun dis lat lon radius ts h => ?_,
    fun dis c crest lat lon radius ts h hl => ?_⟩
  · simp [is_event_relevant, h]
  · simp [is_reliefweb_event_relevant, h, listIndex]
  · simp [is_reliefweb_event_relevant, h, hl, listIndex]

/-- C3 (amended, witness): a geometry-less EONET event, a country-less
ReliefWeb disaster and a location-less ReliefWeb country entry are all
rejected without error. -/
theorem event_absent_coordinates_amended_witness :
    is_event_relevant
      { title := none, categories := none, geometry := [], sources := none }
      0 0 (some "2024-11-07") 50 = false ∧
    is_reliefweb_event_relevant
      { fields := { country := none, typeList := none, name := none,
                    dateCreated := none, url_alias := none } }
      0 0 (some "2024-11-07") 50 = .ok false ∧
    is_reliefweb_event_relevant
      { fields := { country := some [{ location := none }], typeList := none,
                    name := none, dateCreated := none, url_alias := none } }
      0 0 (some "2024-11-07") 50 = .ok false :=
  ⟨event_absent_coordinates_amended.1
      { title := none, categories := none, geometry := [], sources := none }
      0 0 50 (some "2024-11-07") rfl,
   event_absent_coordinates_amended.2.1
      { fields := { country := none, typeList := none, name := none,
                    dateCreated := none, url_alias := none } }
      0 0 50 (some "2024-11-07") rfl,
   event_absent_coordinates_amended.2.2
      { fields := { country := some [{ location := none }], typeList := none,
                    name := none, dateCreated := none, url_alias := none } }
      { location := none } [] 0 0 50 (some "2024-11-07") rfl rfl⟩

/-- A report with two matches from the same source, for the concrete part of
C5. -/
noncomputable def twoSameSourceReport : VerificationReport :=
  { latitude := 0, longitude := 0, date := none, disaster_occurred := true,
    disasters :=
      [{ source := "NASA EONET", type := "Floods", title := "Event A",
         date := none, link := "" },
       { source := "NASA EONET", type := "Wildfires", title := "Event B",
         date := none, link := "" }] }

/-- C5: the insurance summary mirrors `disaster_occurred` in
`claim_verifiable`; `disaster_types` has exactly one entry per matched event
(each event's `type`, duplicates kept, nothing filtered) in order; and
`disaster_sources` is the deduplicated set of the matches' `source` values.
In particular two matches from one source give one deduplicated source and
two type entries. -/
theorem insurance_report_spec :
    (∀ v : VerificationReport,
      (generate_insurance_report v).claim_verifiable = v.disaster_occurred ∧
      (generate_insurance_report v).disaster_types = v.disasters.map Disaster.type ∧
      (generate_insurance_report v).disaster_types.length = v.disasters.length ∧
      (generate_insurance_report v).disaster_sources.Nodup ∧
      (∀ s, s ∈ (generate_insurance_report v).disaster_sources ↔
        s ∈ v.disasters.map Disaster.source)) ∧
    ((generate_insurance_report twoSameSourceReport).disaster_sources.length = 1 ∧
     (generate_insurance_report twoSameSourceReport).disaster_types.length = 2) := by
  constructor
  · intro v
    refine ⟨rfl, rfl, by simp [generate_insurance_report], List.nodup_dedup _,
      fun s => by simp [generate_insurance_report, List.mem_dedup]⟩
  · constructor <;> rfl

/-- The report's `disasters` field is always the EONET matches followed by
the ReliefWeb matches (empty or not). -/
theorem verify_disasters_eq (ef : Except String (Nat × List EonetEvent))
    (rf : Except String (Nat × List (Option String)))
    (det : Option String → Except String RWDisaster)
    (lat lon : ℝ) (d : Option String) (r : ℝ) :
    (verify_location_disaster ef rf det lat lon d r).disasters =
      check_nasa_eonet ef lat lon d r ++ check_reliefweb rf det lat lon d r := by
  unfold verify_location_disaster
  dsimp only
  split
  · next h => simp [List.isEmpty_iff.mp h]
  · rfl

/-- The report's flag is `True` exactly when `disasters` is non-empty. -/
theorem verify_flag_eq (ef : Except String (Nat × List EonetEvent))
    (rf : Except String (Nat × List (Option String)))
    (det : Option String → Except String RWDisaster)
    (lat lon : ℝ) (d : Option String) (r : ℝ) :
    (verify_location_disaster ef rf det lat lon d r).disaster_occurred =
      decide (0 < (verify_location_disaster ef rf det lat lon d r).disasters.length) := by
  unfold verify_location_disaster
  dsimp only
  split
  · rfl
  · next h =>
    have h' := (Bool.not_eq_true _).mp (fun hh => h hh)
    rw [List.isEmpty_eq_false_iff_exists_mem] at h'
    obtain ⟨x, hx⟩ := h'
    simp only
    rw [eq_comm, decide_eq_true_eq]
    exact List.length_pos_of_mem hx

/-- C4: `verify_location_disaster` returns exactly the EONET matches followed
by the ReliefWeb matches, preserving per-feed event order (over a trouble-free
feed the EONET loop is precisely `filterMap` of the matcher over the event
list, in order), and `disaster_occurred = (len(disasters) > 0)`; with zero
events from every feed the report is `false` and `[]`. -/
theorem verify_location_disaster_spec :
    ∀ (ef : Except String (Nat × List EonetEvent))
      (rf : Except String (Nat × List (Option String)))
      (det : Option String → Except String RWDisaster)
      (lat lon : ℝ) (d : Option String) (r : ℝ),
      ((verify_location_disaster ef rf det lat lon d r).disasters =
        check_nasa_eonet ef lat lon d r ++ check_reliefweb rf det lat lon d r) ∧
      ((verify_location_disaster ef rf det lat lon d r).disaster_occurred =
        decide (0 < (verify_location_disaster ef rf det lat lon d r).disasters.length)) ∧
      (∀ events : List EonetEvent,
        (∀ e ∈ events, is_event_relevant e lat lon d r = true →
          (buildEonetDisaster e).toOption.isSome = true) →
        eonetLoop lat lon d r events =
          events.filterMap (fun e =>
            if is_event_relevant e lat lon d r then (buildEonetDisaster e).toOption
            else none)) ∧
      (check_nasa_eonet ef lat lon d r = [] →
        check_reliefweb rf det lat lon d r = [] →
        (verify_location_disaster ef rf det lat lon d r).disaster_occurred = false ∧
        (verify_location_disaster ef rf det lat lon d r).disasters = []) := by
  intro ef rf det lat lon d r
  refine ⟨verify_disasters_eq ef rf det lat lon d r,
          verify_flag_eq ef rf det lat lon d r, ?_, ?_⟩
  · intro events h
    induction events with
    | nil => rfl
    | cons e es ih =>
      have hrest : ∀ x ∈ es, is_event_relevant x lat lon d r = true →
          (buildEonetDisaster x).toOption.isSome = true :=
        fun x hx => h x (List.mem_cons_of_mem e hx)
      by_cases hr : is_event_relevant e lat lon d r = true
      · have hs := h e (List.mem_cons_self e es) hr
        cases hb : buildEonetDisaster e with
        | error err => rw [hb] at hs; simp [Except.toOption] at hs
        | ok dd =>
          simp only [eonetLoop, hr, if_true, hb, List.filterMap_cons, ih hrest]
          simp [Except.toOption]
      · simp only [eonetLoop, List.filterMap_cons]
        rw [Bool.not_eq_true] at hr
        simp [hr, ih hrest]
  · intro h1 h2
    have hd := verify_disasters_eq ef rf det lat lon d r
    rw [h1, h2] at hd
    simp only [List.nil_append] at hd
    refine ⟨?_, hd⟩
    rw [verify_flag_eq ef rf det lat lon d r, hd]
    rfl

/-- C4 (witness): with both feeds failing, the report is produced with
`disaster_occurred = false` and `disasters = []`, instantiating the
zero-events conjunct of the theorem. -/
theorem verify_location_disaster_spec_witness :
    (verify_location_disaster (.error "down") (.error "down")
      (fun _ => .error "down") 0 0 (some "2024-11-07") 50).disaster_occurred = false ∧
    (verify_location_disaster (.error "down") (.error "down")
      (fun _ => .error "down") 0 0 (some "2024-11-07") 50).disasters = [] :=
  (verify_location_disaster_spec (.error "down") (.error "down")
    (fun _ => .error "down") 0 0 (some "2024-11-07") 50).2.2.2 rfl rfl

/-- Whatever happened earlier in the ReliefWeb item list, a failing detail
fetch ends the loop there: the items after it contribute nothing, the
matches before it are kept. -/
theorem reliefwebLoop_stops_at_error
    (det : Option String → Except String RWDisaster)
    (lat lon : ℝ) (d : Option String) (r : ℝ) (e : String)
    (rs1 : List (Option String)) (href : Option String) (rs2 : List (Option String))
    (h : det href = .error e) :
    reliefwebLoop det lat lon d r (rs1 ++ href :: rs2) =
      reliefwebLoop det lat lon d r rs1 := by
  induction rs1 with
  | nil => simp [reliefwebLoop, h]
  | cons x xs ih =>
    cases hdx : det x with
    | error err => simp [reliefwebLoop, hdx]
    | ok dis =>
      cases hrel : is_reliefweb_event_relevant dis lat lon d r with
      | error err => simp [reliefwebLoop, hdx, hrel]
      | ok b =>
        cases b with
        | false => simp [reliefwebLoop, hdx, hrel, ih]
        | true =>
          cases hb : buildReliefwebDisaster dis with
          | error err => simp [reliefwebLoop, hdx, hrel, hb]
          | ok dd => simp [reliefwebLoop, hdx, hrel, hb, ih]

/-- A ReliefWeb disaster located at the origin and dated 2024-11-07. -/
noncomputable def rwOriginDisaster : RWDisaster :=
  { fields := { country := some [{ location := some { lat := some 0, lon := some 0 } }],
                typeList := none, name := none,
                dateCreated := some "2024-11-07", url_alias := none } }

/-- `rwOriginDisaster` matches the target (0,0) on its own date. -/
theorem rwOriginDisaster_relevant :
    is_reliefweb_event_relevant rwOriginDisaster 0 0 (some "2024-11-07") 50 = .ok true := by
  simp only [is_reliefweb_event_relevant, rwOriginDisaster, Option.getD_some, listIndex,
    List.getElem?_cons_zero]
  rw [haversine_self]
  rw [show decide ((0 : ℝ) ≤ 50) = true from decide_eq_true (by norm_num)]
  rfl

/-- A detail fetcher that succeeds on href `d1` and fails on everything
else (a transport error on the second per-disaster request). -/
noncomputable def detailFailsAfterFirst : Option String → Except String RWDisaster :=
  fun href => if href = some "d1" then .ok rwOriginDisaster else .error "ConnectionError"

/-- C6 (counterexample): a transport error raised during ReliefWeb's second
per-disaster detail fetch is caught, but the adapter's contribution is NOT
zero events — the match from the first disaster is kept, refuting "the
adapter's contribution is then zero events from that feed". -/
theorem feed_error_partial_results_counterexample :
    check_reliefweb (.ok (200, [some "d1", some "d2"])) detailFailsAfterFirst
        0 0 (some "2024-11-07") 50 =
      [{ source := "ReliefWeb", type := "Unknown", title := "Unnamed Event",
         date := some "2024-11-07", link := "" }] := by
  have h1 : detailFailsAfterFirst (some "d1") = .ok rwOriginDisaster := by
    simp [detailFailsAfterFirst]
  have h2 : detailFailsAfterFirst (some "d2") = .error "ConnectionError" := by
    simp [detailFailsAfterFirst]
  simp only [check_reliefweb, if_pos]
  simp only [reliefwebLoop, h1, h2, rwOriginDisaster_relevant]
  rfl

/-- C6 (amended): every raised transport or parsing error is caught inside
the adapter and never propagates (the adapters are total functions); an
error in the initial feed fetch — or a non-200 status — contributes zero
events; but an error during ReliefWeb's per-disaster detail fetches ends the
loop and contributes the matches accumulated before the failing item (not
necessarily zero).  `verify_location_disaster` still produces the report
from whichever feeds succeeded: with one feed erroring, its `disasters` are
exactly the other feed's matches. -/
theorem feed_errors_contained :
    (∀ (e : String) (lat lon : ℝ) (d : Option String) (r : ℝ),
      check_nasa_eonet (.error e) lat lon d r = []) ∧
    (∀ (status : Nat) (events : List EonetEvent) (lat lon : ℝ)
        (d : Option String) (r : ℝ), status ≠ 200 →
      check_nasa_eonet (.ok (status, events)) lat lon d r = []) ∧
    (∀ (e : String) (det : Option String → Except String RWDisaster)
        (lat lon : ℝ) (d : Option String) (r : ℝ),
      check_reliefweb (.error e) det lat lon d r = []) ∧
    (∀ (status : Nat) (refs : List (Option String))
        (det : Option String → Except String RWDisaster)
        (lat lon : ℝ) (d : Option String) (r : ℝ), status ≠ 200 →
      check_reliefweb (.ok (status, refs)) det lat lon d r = []) ∧
    (∀ (det : Option String → Except String RWDisaster)
        (lat lon : ℝ) (d : Option String) (r : ℝ) (e : String)
        (rs1 : List (Option String)) (href : Option String)
        (rs2 : List (Option String)), det href = .error e →
      reliefwebLoop det lat lon d r (rs1 ++ href :: rs2) =
        reliefwebLoop det lat lon d r rs1) ∧
    (∀ (e : String) (rf : Except String (Nat × List (Option String)))
        (det : Option String → Except String RWDisaster)
        (lat lon : ℝ) (d : Option String) (r : ℝ),
      (verify_location_disaster (.error e) rf det lat lon d r).disasters =
        check_reliefweb rf det lat lon d r) ∧
    (∀ (ef : Except String (Nat × List EonetEvent)) (e : String)
        (det : Option String → Except String RWDisaster)
        (lat lon : ℝ) (d : Option String) (r : ℝ),
      (verify_location_disaster ef (.error e) det lat lon d r).disasters =
        check_nasa_eonet ef lat lon d r) := by
  refine ⟨fun e lat lon d r => rfl,
          fun status events lat lon d r h => by simp [check_nasa_eonet, h],
          fun e det lat lon d r => rfl,
          fun status refs det lat lon d r h => by simp [check_reliefweb, h],
          fun det lat lon d r e rs1 href rs2 h =>
            reliefwebLoop_stops_at_error det lat lon d r e rs1 href rs2 h,
          fun e rf det lat lon d r => ?_,
          fun ef e det lat lon d r => ?_⟩
  · rw [verify_disasters_eq]
    simp [check_nasa_eonet]
  · rw [verify_disasters_eq]
    simp [check_reliefweb]

/-- C6 (amended, witness): an erroring EONET fetch contributes zero events; a
404 ReliefWeb response contributes zero events; a detail fetch failing on the
very first item yields the empty prefix; and with EONET down, the report's
disasters equal the ReliefWeb adapter's output. -/
theorem feed_errors_contained_witness :
    check_nasa_eonet (.error "ConnectionError") 0 0 (some "2024-11-07") 50 = [] ∧
    check_reliefweb (.ok (404, [some "d1"])) (fun _ => .error "unused")
      0 0 (some "2024-11-07") 50 = [] ∧
    reliefwebLoop (fun _ => .error "ConnectionError") 0 0 (some "2024-11-07") 50
      ([] ++ some "d1" :: [some "d2"]) =
      reliefwebLoop (fun _ => .error "ConnectionError") 0 0 (some "2024-11-07") 50 [] ∧
    (verify_location_disaster (.error "down") (.ok (404, [])) (fun _ => .error "unused")
      0 0 (some "2024-11-07") 50).disasters =
      check_reliefweb (.ok (404, [])) (fun _ => .error "unused")
        0 0 (some "2024-11-07") 50 :=
  ⟨feed_errors_contained.1 "ConnectionError" 0 0 (some "2024-11-07") 50,
   feed_errors_contained.2.2.2.1 404 [some "d1"] (fun _ => .error "unused")
     0 0 (some "2024-11-07") 50 (by decide),
   feed_errors_contained.2.2.2.2.1 (fun _ => .error "ConnectionError")
     0 0 (some "2024-11-07") 50 "ConnectionError" [] (some "d1") [some "d2"] rfl,
   feed_errors_contained.2.2.2.2.2.1 "down" (.ok (404, [])) (fun _ => .error "unused")
     0 0 (some "2024-11-07") 50⟩

/-- C7 (counterexample): a claim that exists and has an image, but whose
image yields no GPS info, is NOT answered with status 400: `process_claim`
only logs "No GPS info found in the image." and returns
`("Claim processed successfully", 200)` — missing location data is silently
defaulted to success, contradicting the claim. -/
theorem process_claim_no_gps_counterexample :
    process_claim (some { receiptImage := some "jpeg-bytes" })
      (fun _ => (none, some "2024-11-07"))
      (.error "down") (.error "down") (fun _ => .error "down") =
      ("Claim processed successfully", 200) := by
  rfl

/-- C7 (amended): `process_claim` returns 404 when the claim is not found and
400 when the image blob is missing or empty; but whenever an image is
present it returns 200 — whether or not GPS info could be extracted.  A
missing image is surfaced as an explicit failure, while missing GPS info is
silently reported as success. -/
theorem process_claim_status_amended :
    (∀ (exif : String → Option (ℝ × ℝ) × Option String)
        (ef : Except String (Nat × List EonetEvent))
        (rf : Except String (Nat × List (Option String)))
        (det : Option String → Except String RWDisaster),
      process_claim none exif ef rf det = ("Claim not found", 404)) ∧
    (∀ (c : ClaimRecord) (exif : String → Option (ℝ × ℝ) × Option String)
        (ef : Except String (Nat × List EonetEvent))
        (rf : Except String (Nat × List (Option String)))
        (det : Option String → Except String RWDisaster),
      pyFalsyBytes c.receiptImage = true →
      process_claim (some c) exif ef rf det =
        ("Image not found in the claim data", 400)) ∧
    (∀ (c : ClaimRecord) (exif : String → Option (ℝ × ℝ) × Option String)
        (ef : Except String (Nat × List EonetEvent))
        (rf : Except String (Nat × List (Option String)))
        (det : Option String → Except String RWDisaster),
      pyFalsyBytes c.receiptImage = false →
      (process_claim (some c) exif ef rf det).2 = 200) := by
  refine ⟨fun exif ef rf det => rfl, fun c exif ef rf det h => ?_,
          fun c exif ef rf det h => ?_⟩
  · simp [process_claim, h]
  · simp only [process_claim, h]
    cases hg : (exif (c.receiptImage.getD "")).1 <;> simp [hg]

/-- C7 (amended, witness): the three statuses at concrete inputs: a missing
claim gives 404, a claim without an image gives 400, and a claim with an
image gives 200 (here with GPS present). -/
theorem process_claim_status_amended_witness :
    process_claim none (fun _ => (none, none)) (.error "down") (.error "down")
        (fun _ => .error "down") = ("Claim not found", 404) ∧
    process_claim (some { receiptImage := none }) (fun _ => (none, none))
        (.error "down") (.error "down") (fun _ => .error "down") =
      ("Image not found in the claim data", 400) ∧
    (process_claim (some { receiptImage := some "img" })
        (fun _ => (some (0, 0), some "2024-11-07")) (.error "down") (.error "down")
        (fun _ => .error "down")).2 = 200 :=
  ⟨process_claim_status_amended.1 (fun _ => (none, none)) (.error "down")
      (.error "down") (fun _ => .error "down"),
   process_claim_status_amended.2.1 { receiptImage := none } (fun _ => (none, none))
      (.error "down") (.error "down") (fun _ => .error "down") rfl,
   process_claim_status_amended.2.2 { receiptImage := some "img" }
      (fun _ => (some (0, 0), some "2024-11-07")) (.error "down") (.error "down")
      (fun _ => .error "down") rfl⟩

end InsuranceAggregator
